import Mathlib

/-! Verification of the financial metric resolution and scoring engine of
src/stock_check.py (Tarantababu/stockanalyse), as a shallow embedding.

Modelling conventions.  Python floats are modelled as rationals `ℚ`.  A
missing value and a float NaN are both modelled as `none : Option ℚ`: every
place the source consumes such a value (`pd.isna` tests, arithmetic that
propagates NaN into a NaN result, the `in`/`isna` availability test of
`calculate_rating`, the DataFrame display which renders an absent key as NaN)
treats the two identically, so collapsing them loses nothing the claims talk
about.  A pandas DataFrame of statements is modelled as a function from the
row label to the period series (most-recent first), `none` when the label is
absent from the index; the cells of a series are `Option ℚ` so that a NaN
cell of a present row stays distinguishable from an absent row (the source
distinguishes them: an absent row raises a KeyError that a surrounding
`except` turns into NaN for every ratio of that block, while a NaN cell only
poisons the ratios that read it).  The Python expression `max(x, nan)`
returns `x` (the comparison `nan > x` is False), which the model reproduces
by cases on the optional current price.  A division of plain Python floats
by `0.0` raises ZeroDivisionError, which the enclosing `try` of
`calculate_valuation_metrics` turns into its error record; the model returns
that record when the current price is zero.  -/

namespace StockCheck

/-- A cell of a statement table; `none` models a NaN entry. -/
abbrev Cell := Option ℚ

/-- A statement table (a pandas DataFrame of one financial statement): maps a
row label to its period series, most-recent first; `none` models a label
absent from the index. -/
abbrev StatementTable := String → Option (List Cell)

/-- The value of the most recent period (`columns[0]`) of row `l`, `none`
when the label is absent, the series empty, or the cell NaN. -/
def cellValue (t : StatementTable) (l : String) : Option ℚ :=
  ((t l).bind fun s => s.get? 0).join

/-- The `for field in fields: if field in table.index: ... break` loops of
`calculate_ratios` (src/stock_check.py:297-300, 314-317, 330-333): the series
of the first listed label present in the table. -/
def findField (t : StatementTable) : List String → Option (List Cell)
  | [] => none
  | l :: rest =>
    match t l with
    | some s => some s
    | none => findField t rest

/-- Resolution of a canonical concept: the value at the requested period of
the first synonym whose label exists in the table; `none` when every synonym
is absent, the period is out of range, or the cell is NaN. -/
def resolveField (t : StatementTable) (syns : List String) (period : ℕ) : Option ℚ :=
  ((findField t syns).bind fun s => s.get? period).join

/-- src/stock_check.py:290-294. -/
def current_liabilities_fields : List String :=
  ["Total Current Liabilities", "Current Liabilities", "Total Current Liab"]

/-- src/stock_check.py:306-311. -/
def operating_income_fields : List String :=
  ["Operating Income", "EBIT", "Operating Income Or Loss", "Income Before Tax"]

/-- src/stock_check.py:323-327. -/
def net_income_fields : List String :=
  ["Net Income", "Net Income Common Stockholders", "Net Income From Continuing Ops"]

/-- `calculate_growth_rate` (src/stock_check.py:6-12): year-over-year growth
of a most-recent-first series.  `iloc[0]`/`iloc[1]` need at least two cells;
a zero previous value yields NaN, and a NaN in either cell propagates to a
NaN result (in Python `nan != 0` is True and the arithmetic yields NaN). -/
def calculate_growth_rate (s : List Cell) : Option ℚ :=
  if 2 ≤ s.length then
    match (s.get? 0).join, (s.get? 1).join with
    | some current, some previous =>
        if previous ≠ 0 then some ((current - previous) / |previous| * 100) else none
    | _, _ => none
  else none

/-- The flat `info` mapping of scalar market attributes for one ticker.
`none` models a key the provider omits (or a NaN value, see the header). -/
structure MarketInfo where
  currentPrice : Option ℚ := none
  trailingPE : Option ℚ := none
  forwardPE : Option ℚ := none
  forwardEps : Option ℚ := none
  revenuePerShare : Option ℚ := none
  priceToSales : Option ℚ := none
  industryPriceToSales : Option ℚ := none
  industryPE : Option ℚ := none
  debtToEquity : Option ℚ := none
  industry : Option String := none
  sector : Option String := none

/-- Shared numerator-over-capital-employed step of ROCE and ROIC
(src/stock_check.py:342-353): guard `capital_employed != 0`, NaN operands
propagate to NaN. -/
def ratioOverCE (ce v : Option ℚ) : Option ℚ :=
  match ce, v with
  | some c, some x => if c ≠ 0 then some (x / c * 100) else none
  | _, _ => none

/-- Capital Employed (src/stock_check.py:339): `Total Assets` minus the
resolved current liabilities, at the most recent period. -/
def capital_employed (bs : StatementTable) : Option ℚ :=
  match cellValue bs "Total Assets", resolveField bs current_liabilities_fields 0 with
  | some a, some c => some (a - c)
  | _, _ => none

/-- The ROCE/ROIC block of `calculate_ratios` (src/stock_check.py:285-357).
If `Total Assets` or every synonym of current liabilities, operating income
or net income is absent, the block raises and the `except` sets both ratios
to NaN; otherwise Capital Employed is computed once and shared (on the
matched branch `capital_employed bs` is exactly the `total_assets -
current_liabilities` of line 339, read at the most recent period). -/
def roceRoicPair (inc bs : StatementTable) : Option ℚ × Option ℚ :=
  match bs "Total Assets", findField bs current_liabilities_fields,
        findField inc operating_income_fields, findField inc net_income_fields with
  | some _, some _, some _, some _ =>
      (ratioOverCE (capital_employed bs) (resolveField inc operating_income_fields 0),
       ratioOverCE (capital_employed bs) (resolveField inc net_income_fields 0))
  | _, _, _, _ => (none, none)

def roceOf (inc bs : StatementTable) : Option ℚ := (roceRoicPair inc bs).1

def roicOf (inc bs : StatementTable) : Option ℚ := (roceRoicPair inc bs).2

/-- Gross Margin (src/stock_check.py:392-395): both labels must be in the
index, the ratio is guarded by `revenue != 0`, and a NaN cell yields NaN. -/
def grossMarginOf (inc : StatementTable) : Option ℚ :=
  match inc "Gross Profit", inc "Total Revenue" with
  | some _, some _ =>
      match cellValue inc "Gross Profit", cellValue inc "Total Revenue" with
      | some gp, some rev => if rev ≠ 0 then some (gp / rev * 100) else none
      | _, _ => none
  | _, _ => none

/-- Operating Margin (src/stock_check.py:397-400). -/
def operatingMarginOf (inc : StatementTable) : Option ℚ :=
  match inc "Operating Income", inc "Total Revenue" with
  | some _, some _ =>
      match cellValue inc "Operating Income", cellValue inc "Total Revenue" with
      | some oi, some rev => if rev ≠ 0 then some (oi / rev * 100) else none
      | _, _ => none
  | _, _ => none

/-- Debt to Equity (src/stock_check.py:407-420).  When both `Long Term Debt`
and `Short Term Debt` rows exist, the two are summed and divided by
`Total Stockholder Equity` (an absent equity row raises, caught as NaN; a
zero equity is guarded to NaN); otherwise the market `debtToEquity` value is
used, rescaled from percentage to ratio by dividing by 100. -/
def debtToEquityOf (bs : StatementTable) (info : MarketInfo) : Option ℚ :=
  match bs "Long Term Debt", bs "Short Term Debt" with
  | some _, some _ =>
      match bs "Total Stockholder Equity" with
      | some _ =>
          match cellValue bs "Long Term Debt", cellValue bs "Short Term Debt",
                cellValue bs "Total Stockholder Equity" with
          | some ltd, some std, some eq => if eq ≠ 0 then some ((ltd + std) / eq) else none
          | _, _, _ => none
      | none => none
  | _, _ => info.debtToEquity.map fun d => d / 100

/-- Cash Conversion (src/stock_check.py:424-427): guarded by
`net_income != 0`. -/
def cashConversionOf (cf inc : StatementTable) : Option ℚ :=
  match cf "Operating Cash Flow", inc "Net Income" with
  | some _, some _ =>
      match cellValue cf "Operating Cash Flow", cellValue inc "Net Income" with
      | some ocf, some ni => if ni ≠ 0 then some (ocf / ni * 100) else none
      | _, _ => none
  | _, _ => none

/-- Interest Coverage (src/stock_check.py:429-432): the interest expense is
taken in absolute value and guarded against zero. -/
def interestCoverageOf (inc : StatementTable) : Option ℚ :=
  match inc "Interest Expense", inc "Operating Income" with
  | some _, some _ =>
      match cellValue inc "Interest Expense", cellValue inc "Operating Income" with
      | some ieRaw, some oi => if |ieRaw| ≠ 0 then some (oi / |ieRaw|) else none
      | _, _ => none
  | _, _ => none

/-- EPS Growth Rate (src/stock_check.py:372-374): only derived when the
`Basic EPS` row exists. -/
def epsGrowthOf (inc : StatementTable) : Option ℚ :=
  match inc "Basic EPS" with
  | some s => calculate_growth_rate s
  | none => none

/-- Revenue Growth Rate (src/stock_check.py:377-379). -/
def revenueGrowthOf (inc : StatementTable) : Option ℚ :=
  match inc "Total Revenue" with
  | some s => calculate_growth_rate s
  | none => none

/-- The RatioSet built by `calculate_ratios` (src/stock_check.py:269-439),
one field per ratio key of the `ratios` dict.  `none` stands for a NaN entry
or an entry the code never set; every consumer of the dict (the rating
engine's `in`/`isna` test, the DataFrame display) treats the two alike. -/
structure RatioSet where
  roce : Option ℚ := none
  roic : Option ℚ := none
  marketPrice : Option ℚ := none
  peRatio : Option ℚ := none
  epsGrowthRate : Option ℚ := none
  revenueGrowthRate : Option ℚ := none
  grossMargin : Option ℚ := none
  operatingMargin : Option ℚ := none
  debtToEquity : Option ℚ := none
  cashConversion : Option ℚ := none
  interestCoverage : Option ℚ := none

/-- The ratio-derivation core of `calculate_ratios`: each ratio is derived
independently from its own line items, mirroring the independent guarded
blocks of the source. -/
def calculate_ratios (inc bs cf : StatementTable) (info : MarketInfo) : RatioSet :=
  { roce := roceOf inc bs
    roic := roicOf inc bs
    marketPrice := info.currentPrice
    peRatio := info.trailingPE
    epsGrowthRate := epsGrowthOf inc
    revenueGrowthRate := revenueGrowthOf inc
    grossMargin := grossMarginOf inc
    operatingMargin := operatingMarginOf inc
    debtToEquity := debtToEquityOf bs info
    cashConversion := cashConversionOf cf inc
    interestCoverage := interestCoverageOf inc }

/-- A value of one field of the valuation record: a (possibly NaN) number, a
plain string, or the conservative-to-optimistic value range string of the
success path, kept as the pair of numbers it formats. -/
inductive VField where
  | num (v : Option ℚ)
  | str (s : String)
  | range (lo hi : ℚ)
  deriving DecidableEq

/-- A valuation record: the Python dict returned by
`calculate_valuation_metrics`, as an association list in the literal key
order of the source. -/
abbrev ValRecord := List (String × VField)

/-- The early-return record of src/stock_check.py:59-70 (forward EPS missing
or non-positive and no revenue-multiple inputs). -/
def negEarningsRecord (fpe feps : Option ℚ) (ind sec : String) : ValRecord :=
  [("Forward P/E", .num fpe), ("Industry P/E", .num none), ("Forward EPS", .num feps),
   ("Industry", .str ind), ("Sector", .str sec), ("Fair Value", .num none),
   ("Value Range", .str "N/A"), ("Valuation Status", .str "Negative Earnings"),
   ("Upside Potential (%)", .num none), ("Downside Risk (%)", .num none)]

/-- The early-return record of src/stock_check.py:89-101 (non-positive base
fair value). -/
def unableRecord (fpe feps : Option ℚ) (ind sec : String) : ValRecord :=
  [("Forward P/E", .num fpe), ("Industry P/E", .num none), ("Forward EPS", .num feps),
   ("Industry", .str ind), ("Sector", .str sec), ("Fair Value", .num none),
   ("Value Range", .str "N/A"), ("Valuation Status", .str "Unable to Calculate"),
   ("Upside Potential (%)", .num none), ("Downside Risk (%)", .num none)]

/-- The `except` record of src/stock_check.py:145-157. -/
def errorRecord : ValRecord :=
  [("Forward P/E", .num none), ("Industry P/E", .num none), ("Forward EPS", .num none),
   ("Industry", .str "N/A"), ("Sector", .str "N/A"), ("Fair Value", .num none),
   ("Value Range", .str "N/A"), ("Valuation Status", .str "Error in Calculation"),
   ("Upside Potential (%)", .num none), ("Downside Risk (%)", .num none)]

/-- The success record of src/stock_check.py:132-143. -/
def successRecord (fpe ipe feps : Option ℚ) (ind sec : String) (fv lo hi : ℚ)
    (status : String) (up dn : Option ℚ) : ValRecord :=
  [("Forward P/E", .num fpe), ("Industry P/E", .num ipe), ("Forward EPS", .num feps),
   ("Industry", .str ind), ("Sector", .str sec), ("Fair Value", .num (some fv)),
   ("Value Range", .range lo hi), ("Valuation Status", .str status),
   ("Upside Potential (%)", .num up), ("Downside Risk (%)", .num dn)]

/-- src/stock_check.py:78: the forward P/E kept when present and positive,
otherwise the conservative default 15. -/
def clampedFPE (info : MarketInfo) : ℚ :=
  match info.forwardPE with
  | some f => if 0 < f then f else 15
  | none => 15

/-- src/stock_check.py:73-79: `stock.info.get('industryPE', forward_pe)`,
defaulted to 15 when missing or non-positive, then capped at 50. -/
def clampedIPE (info : MarketInfo) : ℚ :=
  min
    (match (match info.industryPE with
            | some v => some v
            | none => info.forwardPE) with
     | some v => if v ≤ 0 then 15 else v
     | none => 15)
    50

/-- src/stock_check.py:82-86: base fair value of the positive-earnings path,
the average of the forward-P/E-based and industry-P/E-based values. -/
def baseFairValue (info : MarketInfo) (eps : ℚ) : ℚ :=
  (eps * clampedFPE info + eps * clampedIPE info) / 2

/-- src/stock_check.py:104-111: the margin of safety, 20% base, widened to
`min(0.3, 0.4)` above the high-leverage threshold and narrowed to
`max(0.15, 0.1)` below the low-leverage one. -/
def marginOf (dte : Option ℚ) : ℚ :=
  match dte with
  | some d =>
      if 2 < d then min (2/10 + 1/10) (4/10)
      else if d < 1 then max (2/10 - 5/100) (1/10)
      else 2/10
  | none => 2/10

/-- src/stock_check.py:114: conservative value before the price floor. -/
def consFloor (base m : ℚ) : ℚ := max (base * (1 - m)) 0

/-- src/stock_check.py:115: the optimistic value, floored at 1.2 times the
pre-price-floor conservative value. -/
def optimisticOf (base m : ℚ) : ℚ :=
  max (base * (1 + m)) (consFloor base m * (12/10))

/-- src/stock_check.py:118: the conservative value after the floor at a
tenth of the current price; Python's `max(x, nan)` returns `x`, so a missing
price leaves the pre-floor value. -/
def conservativeOf (base m : ℚ) (price : Option ℚ) : ℚ :=
  match price with
  | some p => max (consFloor base m) (p * (1/10))
  | none => consFloor base m

/-- src/stock_check.py:121-126: the three-way valuation classification. -/
def valuationStatusOf (p cons opt : ℚ) : String :=
  if p < cons then "Undervalued"
  else if opt < p then "Overvalued"
  else "Fair Valued"

/-- src/stock_check.py:129. -/
def upsideOf (p opt : ℚ) : ℚ := (opt - p) / p * 100

/-- src/stock_check.py:130. -/
def downsideOf (p cons : ℚ) : ℚ := (p - cons) / p * 100

/-- src/stock_check.py:89-143: the tail of `calculate_valuation_metrics`
shared by the positive-earnings and revenue-fallback paths, from the
non-positive base-fair-value check onwards.  With a missing current price
every NaN comparison is False, so the status falls to "Fair Valued" and the
upside and downside are NaN; with a zero current price the upside division
of plain floats raises ZeroDivisionError, which the surrounding `except`
turns into the error record. -/
def finishValuation (info : MarketInfo) (base : ℚ) (m : ℚ) (fpe ipe : Option ℚ) : ValRecord :=
  if base ≤ 0 then
    unableRecord fpe info.forwardEps (info.industry.getD "N/A") (info.sector.getD "N/A")
  else
    let o := optimisticOf base m
    let c := conservativeOf base m info.currentPrice
    match info.currentPrice with
    | none =>
        successRecord fpe ipe info.forwardEps (info.industry.getD "N/A")
          (info.sector.getD "N/A") base c o "Fair Valued" none none
    | some p =>
        if p = 0 then errorRecord
        else
          successRecord fpe ipe info.forwardEps (info.industry.getD "N/A")
            (info.sector.getD "N/A") base c o (valuationStatusOf p c o)
            (some (upsideOf p o)) (some (downsideOf p c))

/-- src/stock_check.py:49-70: the revenue-multiple fallback taken when the
forward EPS is missing or non-positive.  The forward P/E field passes
through unclamped and no industry P/E enters scope (`locals()` test of
line 134), so the success record's Industry P/E is NaN on this path. -/
def revenueFallback (info : MarketInfo) (dte : Option ℚ) : ValRecord :=
  match info.revenuePerShare, info.priceToSales with
  | some rps, some pts =>
      finishValuation info (rps * info.industryPriceToSales.getD pts) (marginOf dte)
        info.forwardPE none
  | _, _ =>
      negEarningsRecord info.forwardPE info.forwardEps (info.industry.getD "N/A")
        (info.sector.getD "N/A")

/-- `calculate_valuation_metrics` (src/stock_check.py:29-157) as a function
of the market snapshot and the Debt-to-Equity ratio the caller passes in
(`ratios.get('Debt to Equity')`). -/
def calculate_valuation_metrics (info : MarketInfo) (dte : Option ℚ) : ValRecord :=
  match info.forwardEps with
  | some e =>
      if 0 < e then
        finishValuation info (baseFairValue info e) (marginOf dte)
          (some (clampedFPE info)) (some (clampedIPE info))
      else revenueFallback info dte
  | none => revenueFallback info dte

/-- The ten keys every valuation record carries, in source order. -/
def valuationFieldNames : List String :=
  ["Forward P/E", "Industry P/E", "Forward EPS", "Industry", "Sector", "Fair Value",
   "Value Range", "Valuation Status", "Upside Potential (%)", "Downside Risk (%)"]

/-- src/stock_check.py:184-189: score against good/neutral thresholds where
higher is better. -/
def scoreHigher (v good neutral : ℚ) : ℚ :=
  if good ≤ v then 3 else if neutral ≤ v then 2 else 1

/-- src/stock_check.py:176-182: score against good/neutral thresholds where
lower is better (the `reverse` thresholds of Debt to Equity). -/
def scoreLower (v good neutral : ℚ) : ℚ :=
  if v ≤ good then 3 else if v ≤ neutral then 2 else 1

/-- One metric's contribution to `(score, total_weight)`
(src/stock_check.py:173-190): skipped entirely when unavailable. -/
def ratingContrib (v? : Option ℚ) (w : ℚ) (sc : ℚ → ℚ) : ℚ × ℚ :=
  match v? with
  | some v => (w * sc v, w)
  | none => (0, 0)

/-- The `(score, total_weight)` accumulation of `calculate_rating`
(src/stock_check.py:158-190), with the weights of lines 160-167 and the
thresholds of `get_color_thresholds` (src/stock_check.py:14-27). -/
def ratingTotals (r : RatioSet) : ℚ × ℚ :=
  (List.foldl (fun acc p => (acc.1 + p.1, acc.2 + p.2)) (0, 0)
    [ratingContrib r.grossMargin (15/100) (fun v => scoreHigher v 40 20),
     ratingContrib r.operatingMargin (20/100) (fun v => scoreHigher v 15 8),
     ratingContrib r.roce (20/100) (fun v => scoreHigher v 15 10),
     ratingContrib r.cashConversion (15/100) (fun v => scoreHigher v 90 70),
     ratingContrib r.debtToEquity (15/100) (fun v => scoreLower v 1 2),
     ratingContrib r.interestCoverage (15/100) (fun v => scoreHigher v 5 2)])

/-- The normalized final score (src/stock_check.py:192-193), `none` when no
weighted metric was available. -/
def ratingScore (r : RatioSet) : Option ℚ :=
  if 0 < (ratingTotals r).2 then some ((ratingTotals r).1 / (ratingTotals r).2) else none

/-- A letter grade; `NA` is the `'N/A'` of src/stock_check.py:205. -/
inductive Grade where
  | A | B | C | D | F | NA
  deriving DecidableEq

/-- src/stock_check.py:195-204: the final-score-to-letter mapping. -/
def letterGrade (s : ℚ) : Grade :=
  if 27/10 ≤ s then .A
  else if 23/10 ≤ s then .B
  else if 2 ≤ s then .C
  else if 17/10 ≤ s then .D
  else .F

/-- `calculate_rating` (src/stock_check.py:158-205). -/
def calculate_rating (r : RatioSet) : Grade :=
  match ratingScore r with
  | some s => letterGrade s
  | none => .NA

/-! Concrete inputs used by the theorems below. -/

/-- A RatioSet with all six weighted metrics exactly at their good
thresholds. -/
def allGoodRatios : RatioSet :=
  { grossMargin := some 40, operatingMargin := some 15, roce := some 15,
    cashConversion := some 90, debtToEquity := some 1, interestCoverage := some 5 }

/-- A RatioSet with all six weighted metrics exactly at their neutral
thresholds. -/
def allNeutralRatios : RatioSet :=
  { grossMargin := some 20, operatingMargin := some 8, roce := some 10,
    cashConversion := some 70, debtToEquity := some 2, interestCoverage := some 2 }

/-- A RatioSet with none of the six weighted metrics available. -/
def noWeightedRatios : RatioSet := {}

/-- An income statement whose most recent period is replaced by a zero
`Total Revenue` row, leaving every other row as it was: the failed-margin
scenario of the independence property. -/
def zeroRevenue (t : StatementTable) : StatementTable :=
  fun l => if l = "Total Revenue" then some [some 0] else t l

/-! Helper lemmas. -/

lemma findField_all_absent (t : StatementTable) (syns : List String)
    (h : ∀ l ∈ syns, t l = none) : findField t syns = none := by
  induction syns with
  | nil => rfl
  | cons l rest ih =>
    unfold findField
    rw [h l (List.mem_cons_self l rest)]
    exact ih fun l' hl' => h l' (List.mem_cons_of_mem l hl')

lemma findField_first (t : StatementTable) (pre post : List String) (l : String)
    (s : List Cell) (hpre : ∀ l' ∈ pre, t l' = none) (hl : t l = some s) :
    findField t (pre ++ l :: post) = some s := by
  induction pre with
  | nil => simp [findField, hl]
  | cons a as ih =>
    rw [List.cons_append]
    unfold findField
    rw [hpre a (List.mem_cons_self a as)]
    exact ih fun l' hl' => hpre l' (List.mem_cons_of_mem a hl')

lemma findField_congr (t1 t2 : StatementTable) (syns : List String)
    (h : ∀ l ∈ syns, t1 l = t2 l) : findField t1 syns = findField t2 syns := by
  induction syns with
  | nil => rfl
  | cons l rest ih =>
    unfold findField
    rw [h l (List.mem_cons_self l rest)]
    cases t2 l with
    | some s => rfl
    | none => exact ih fun l' hl' => h l' (List.mem_cons_of_mem l hl')

lemma grossMargin_guard (inc : StatementTable)
    (h : cellValue inc "Total Revenue" = none ∨ cellValue inc "Total Revenue" = some 0) :
    grossMarginOf inc = none := by
  unfold grossMarginOf
  rcases hgp : inc "Gross Profit" with _ | gpS <;> rcases hrev : inc "Total Revenue" with _ | revS
  · rfl
  · rfl
  · rfl
  · rcases hc : cellValue inc "Gross Profit" with _ | gp <;>
      rcases h with h | h <;> simp [h, hc]

lemma operatingMargin_guard (inc : StatementTable)
    (h : cellValue inc "Total Revenue" = none ∨ cellValue inc "Total Revenue" = some 0) :
    operatingMarginOf inc = none := by
  unfold operatingMarginOf
  rcases hoi : inc "Operating Income" with _ | oiS <;> rcases hrev : inc "Total Revenue" with _ | revS
  · rfl
  · rfl
  · rfl
  · rcases hc : cellValue inc "Operating Income" with _ | oi <;>
      rcases h with h | h <;> simp [h, hc]

lemma ratioOverCE_bad (ce v : Option ℚ) (h : ce = none ∨ ce = some 0) :
    ratioOverCE ce v = none := by
  rcases h with h | h <;> subst h <;> rcases v with _ | x <;> simp [ratioOverCE]

lemma roceRoic_guard (inc bs : StatementTable)
    (h : capital_employed bs = none ∨ capital_employed bs = some 0) :
    roceOf inc bs = none ∧ roicOf inc bs = none := by
  unfold roceOf roicOf roceRoicPair
  rcases hta : bs "Total Assets" with _ | taS <;>
    rcases hcl : findField bs current_liabilities_fields with _ | clS <;>
    rcases hoi : findField inc operating_income_fields with _ | oiS <;>
    rcases hni : findField inc net_income_fields with _ | niS <;>
    try exact ⟨rfl, rfl⟩
  exact ⟨ratioOverCE_bad _ _ h, ratioOverCE_bad _ _ h⟩

lemma cashConversion_guard (cf inc : StatementTable)
    (h : cellValue inc "Net Income" = none ∨ cellValue inc "Net Income" = some 0) :
    cashConversionOf cf inc = none := by
  unfold cashConversionOf
  rcases hocf : cf "Operating Cash Flow" with _ | ocfS <;> rcases hni : inc "Net Income" with _ | niS
  · rfl
  · rfl
  · rfl
  · rcases hc : cellValue cf "Operating Cash Flow" with _ | ocf <;>
      rcases h with h | h <;> simp [h, hc]

lemma interestCoverage_guard (inc : StatementTable)
    (h : cellValue inc "Interest Expense" = none ∨ cellValue inc "Interest Expense" = some 0) :
    interestCoverageOf inc = none := by
  unfold interestCoverageOf
  rcases hie : inc "Interest Expense" with _ | ieS <;> rcases hoi : inc "Operating Income" with _ | oiS
  · rfl
  · rfl
  · rfl
  · rcases hc : cellValue inc "Operating Income" with _ | oi <;>
      rcases h with h | h <;> simp [h, hc]

lemma debtToEquity_guard (bs : StatementTable) (info : MarketInfo)
    (ltdS stdS : List Cell) (h1 : bs "Long Term Debt" = some ltdS)
    (h2 : bs "Short Term Debt" = some stdS)
    (h : cellValue bs "Total Stockholder Equity" = none ∨
         cellValue bs "Total Stockholder Equity" = some 0) :
    debtToEquityOf bs info = none := by
  unfold debtToEquityOf
  rw [h1, h2]
  rcases heq : bs "Total Stockholder Equity" with _ | eqS
  · rfl
  · rcases hl : cellValue bs "Long Term Debt" with _ | ltd <;>
      rcases hs : cellValue bs "Short Term Debt" with _ | std <;>
      rcases h with h | h <;> simp [h, hl, hs]

lemma growth_guard (s : List Cell)
    (h : (s.get? 1).join = none ∨ (s.get? 1).join = some 0) :
    calculate_growth_rate s = none := by
  unfold calculate_growth_rate
  rcases h with h | h <;> rw [h] <;>
    rcases hc : (s.get? 0).join with _ | c <;> split <;> simp

lemma clampedFPE_pos (info : MarketInfo) : 0 < clampedFPE info := by
  unfold clampedFPE
  rcases info.forwardPE with _ | f
  · norm_num
  · dsimp only
    split
    · assumption
    · norm_num

lemma clampedIPE_pos (info : MarketInfo) : 0 < clampedIPE info := by
  unfold clampedIPE
  apply lt_min _ (by norm_num)
  rcases info.industryPE with _ | v <;> dsimp only
  · rcases info.forwardPE with _ | f <;> dsimp only
    · norm_num
    · split
      · norm_num
      · linarith [not_le.mp (by assumption : ¬ f ≤ 0)]
  · split
    · norm_num
    · linarith [not_le.mp (by assumption : ¬ v ≤ 0)]

lemma baseFairValue_pos (info : MarketInfo) (e : ℚ) (he : 0 < e) :
    0 < baseFairValue info e := by
  unfold baseFairValue
  have h1 := clampedFPE_pos info
  have h2 := clampedIPE_pos info
  positivity

lemma finishValuation_success (info : MarketInfo) (base m : ℚ) (fpe ipe : Option ℚ)
    (hb : 0 < base) (p : ℚ) (hp : info.currentPrice = some p) (h0 : p ≠ 0) :
    finishValuation info base m fpe ipe =
      successRecord fpe ipe info.forwardEps (info.industry.getD "N/A")
        (info.sector.getD "N/A") base (conservativeOf base m (some p))
        (optimisticOf base m)
        (valuationStatusOf p (conservativeOf base m (some p)) (optimisticOf base m))
        (some (upsideOf p (optimisticOf base m)))
        (some (downsideOf p (conservativeOf base m (some p)))) := by
  unfold finishValuation
  rw [hp, if_neg (not_le.mpr hb)]
  dsimp only
  rw [if_neg h0]

lemma record_keys_negEarnings (fpe feps : Option ℚ) (ind sec : String) :
    (negEarningsRecord fpe feps ind sec).map Prod.fst = valuationFieldNames := rfl

lemma record_keys_unable (fpe feps : Option ℚ) (ind sec : String) :
    (unableRecord fpe feps ind sec).map Prod.fst = valuationFieldNames := rfl

lemma record_keys_success (fpe ipe feps : Option ℚ) (ind sec : String) (fv lo hi : ℚ)
    (status : String) (up dn : Option ℚ) :
    (successRecord fpe ipe feps ind sec fv lo hi status up dn).map Prod.fst =
      valuationFieldNames := rfl

lemma finishValuation_keys (info : MarketInfo) (base m : ℚ) (fpe ipe : Option ℚ) :
    (finishValuation info base m fpe ipe).map Prod.fst = valuationFieldNames := by
  unfold finishValuation
  split
  · exact record_keys_unable _ _ _ _
  · rcases info.currentPrice with _ | p
    · exact record_keys_success _ _ _ _ _ _ _ _ _ _ _
    · dsimp only
      split
      · rfl
      · exact record_keys_success _ _ _ _ _ _ _ _ _ _ _

lemma calculate_valuation_metrics_keys (info : MarketInfo) (dte : Option ℚ) :
    (calculate_valuation_metrics info dte).map Prod.fst = valuationFieldNames := by
  unfold calculate_valuation_metrics revenueFallback
  rcases info.forwardEps with _ | e <;> dsimp only
  · rcases info.revenuePerShare with _ | rps <;> rcases info.priceToSales with _ | pts <;>
      first
        | exact record_keys_negEarnings _ _ _ _
        | exact finishValuation_keys _ _ _ _ _
  · split
    · exact finishValuation_keys _ _ _ _ _
    · rcases info.revenuePerShare with _ | rps <;> rcases info.priceToSales with _ | pts <;>
        first
          | exact record_keys_negEarnings _ _ _ _
          | exact finishValuation_keys _ _ _ _ _

lemma calculate_valuation_metrics_success (info : MarketInfo) (dte : Option ℚ)
    (e p : ℚ) (he : info.forwardEps = some e) (he0 : 0 < e)
    (hp : info.currentPrice = some p) (h0 : p ≠ 0) :
    calculate_valuation_metrics info dte =
      successRecord (some (clampedFPE info)) (some (clampedIPE info)) info.forwardEps
        (info.industry.getD "N/A") (info.sector.getD "N/A") (baseFairValue info e)
        (conservativeOf (baseFairValue info e) (marginOf dte) (some p))
        (optimisticOf (baseFairValue info e) (marginOf dte))
        (valuationStatusOf p
          (conservativeOf (baseFairValue info e) (marginOf dte) (some p))
          (optimisticOf (baseFairValue info e) (marginOf dte)))
        (some (upsideOf p (optimisticOf (baseFairValue info e) (marginOf dte))))
        (some (downsideOf p
          (conservativeOf (baseFairValue info e) (marginOf dte) (some p)))) := by
  unfold calculate_valuation_metrics
  rw [he]
  dsimp only
  rw [if_pos he0, ← he]
  exact finishValuation_success info (baseFairValue info e) (marginOf dte) _ _
    (baseFairValue_pos info e he0) p hp h0

/-! The claims. -/

/-- C2: for every series, the growth rate equals
`(series[0] - series[1]) / abs(series[1]) * 100` when the series has at
least two elements and `series[1]` is nonzero, and is Unavailable otherwise;
in particular `[120, 100]` gives 20, `[80, 100]` gives -20, `[x, 0]` is
Unavailable for every x, and a single-element series is Unavailable. -/
theorem claim2_growth_rate :
    (∀ (current previous : ℚ) (rest : List Cell), previous ≠ 0 →
        calculate_growth_rate (some current :: some previous :: rest) =
          some ((current - previous) / |previous| * 100)) ∧
    (∀ (c : Cell) (rest : List Cell), calculate_growth_rate (c :: some 0 :: rest) = none) ∧
    (∀ s : List Cell, s.length < 2 → calculate_growth_rate s = none) ∧
    calculate_growth_rate [some 120, some 100] = some 20 ∧
    calculate_growth_rate [some 80, some 100] = some (-20) ∧
    (∀ x : ℚ, calculate_growth_rate [some x, some 0] = none) ∧
    (∀ c : Cell, calculate_growth_rate [c] = none) := by
  refine ⟨?_, ?_, ?_, by norm_num [calculate_growth_rate],
    by norm_num [calculate_growth_rate], ?_, ?_⟩
  · intro current previous rest h
    simp [calculate_growth_rate, h]
  · exact fun c rest => growth_guard _ (Or.inr rfl)
  · intro s h
    unfold calculate_growth_rate
    rw [if_neg (not_le.mpr h)]
  · exact fun x => growth_guard _ (Or.inr rfl)
  · exact fun c => growth_guard _ (Or.inl rfl)

/-- C2 witness: the generic formula applied at a concrete series. -/
theorem claim2_growth_rate_witness :
    calculate_growth_rate [some 3, some 2] = some 50 := by
  have h := claim2_growth_rate.1 3 2 [] (by norm_num)
  norm_num at h
  exact h

/-- C3: the rating is the weighted sum of per-metric scores in 3/2/1
(Debt to Equity compared inverted) divided by the total weight of the
available metrics, mapped to letters by 2.7/2.3/2.0/1.7 cutoffs; all six
weighted ratios at their good thresholds score 3.0 and grade A, all at
neutral thresholds score 2.0 and grade C, and none available gives N/A. -/
theorem claim3_rating_engine :
    (∀ (r : RatioSet) (s : ℚ), ratingScore r = some s →
        calculate_rating r =
          (if 27/10 ≤ s then Grade.A else if 23/10 ≤ s then Grade.B
           else if 2 ≤ s then Grade.C else if 17/10 ≤ s then Grade.D else Grade.F)) ∧
    (∀ r : RatioSet, ratingScore r = none → calculate_rating r = Grade.NA) ∧
    (∀ v good neutral : ℚ, scoreHigher v good neutral = 3 ∨
        scoreHigher v good neutral = 2 ∨ scoreHigher v good neutral = 1) ∧
    (∀ v good neutral : ℚ, scoreLower v good neutral = 3 ∨
        scoreLower v good neutral = 2 ∨ scoreLower v good neutral = 1) ∧
    ratingScore allGoodRatios = some 3 ∧ calculate_rating allGoodRatios = Grade.A ∧
    ratingScore allNeutralRatios = some 2 ∧ calculate_rating allNeutralRatios = Grade.C ∧
    ratingScore noWeightedRatios = none ∧ calculate_rating noWeightedRatios = Grade.NA := by
  have hgood : ratingScore allGoodRatios = some 3 := by
    norm_num [ratingScore, ratingTotals, ratingContrib, scoreHigher, scoreLower, allGoodRatios]
  have hneutral : ratingScore allNeutralRatios = some 2 := by
    norm_num [ratingScore, ratingTotals, ratingContrib, scoreHigher, scoreLower, allNeutralRatios]
  have hnone : ratingScore noWeightedRatios = none := by
    norm_num [ratingScore, ratingTotals, ratingContrib, noWeightedRatios]
  refine ⟨?_, ?_, ?_, ?_, hgood, by norm_num [calculate_rating, hgood, letterGrade],
    hneutral, by norm_num [calculate_rating, hneutral, letterGrade],
    hnone, by norm_num [calculate_rating, hnone]⟩
  · intro r s h
    simp [calculate_rating, h, letterGrade]
  · intro r h
    simp [calculate_rating, h]
  · intro v good neutral
    unfold scoreHigher
    split
    · exact Or.inl rfl
    · split
      · exact Or.inr (Or.inl rfl)
      · exact Or.inr (Or.inr rfl)
  · intro v good neutral
    unfold scoreLower
    split
    · exact Or.inl rfl
    · split
      · exact Or.inr (Or.inl rfl)
      · exact Or.inr (Or.inr rfl)

/-- C3 witness: the letter mapping applied at the all-good RatioSet. -/
theorem claim3_rating_engine_witness : calculate_rating allGoodRatios = Grade.A := by
  have h := claim3_rating_engine.1 allGoodRatios 3 (by
    norm_num [ratingScore, ratingTotals, ratingContrib, scoreHigher, scoreLower, allGoodRatios])
  norm_num at h
  exact h

/-- C8: concept resolution tries the synonyms in their fixed order and
returns the requested-period value of the first synonym whose label exists
in the table; if the table contains none of the synonyms, resolution yields
Unavailable, and the ROCE/ROIC caller receives NaN entries rather than an
exception. -/
theorem claim8_statement_accessor :
    (∀ (t : StatementTable) (syns : List String) (p : ℕ), (∀ l ∈ syns, t l = none) →
        findField t syns = none ∧ resolveField t syns p = none) ∧
    (∀ (t : StatementTable) (pre post : List String) (l : String) (s : List Cell) (p : ℕ),
        (∀ l' ∈ pre, t l' = none) → t l = some s →
        findField t (pre ++ l :: post) = some s ∧
        resolveField t (pre ++ l :: post) p = (s.get? p).join) ∧
    operating_income_fields =
      ["Operating Income", "EBIT", "Operating Income Or Loss", "Income Before Tax"] ∧
    (∀ inc bs : StatementTable, findField inc operating_income_fields = none →
        roceOf inc bs = none ∧ roicOf inc bs = none) := by
  refine ⟨?_, ?_, rfl, ?_⟩
  · intro t syns p h
    have hf := findField_all_absent t syns h
    exact ⟨hf, by unfold resolveField; rw [hf]; rfl⟩
  · intro t pre post l s p hpre hl
    have hf := findField_first t pre post l s hpre hl
    exact ⟨hf, by unfold resolveField; rw [hf]; rfl⟩
  · intro inc bs h
    unfold roceOf roicOf roceRoicPair
    rw [h]
    rcases bs "Total Assets" with _ | taS <;>
      rcases findField bs current_liabilities_fields with _ | clS <;>
      rcases findField inc net_income_fields with _ | niS <;>
      exact ⟨rfl, rfl⟩

/-- C8 witness: a table carrying only the second synonym EBIT resolves to
the EBIT value. -/
theorem claim8_statement_accessor_witness :
    resolveField (fun l => if l = "EBIT" then some [some 7] else none)
      operating_income_fields 0 = some 7 := by
  have h := claim8_statement_accessor.2.1
    (fun l => if l = "EBIT" then some [some 7] else none)
    ["Operating Income"] ["Operating Income Or Loss", "Income Before Tax"]
    "EBIT" [some 7] 0 (by intro l' hl'; fin_cases hl'; rfl) rfl
  exact h.2

/-- C10: on every control path - success, negative-earnings bailout,
non-positive fair value, and internal exception - the valuation estimator
returns a record with exactly the same ten fields in the same order, so
consumers can rely on a fixed record shape. -/
theorem claim10_record_shape :
    (∀ (info : MarketInfo) (dte : Option ℚ),
        (calculate_valuation_metrics info dte).map Prod.fst = valuationFieldNames) ∧
    errorRecord.map Prod.fst = valuationFieldNames :=
  ⟨calculate_valuation_metrics_keys, rfl⟩

lemma zeroRevenue_other (t : StatementTable) (l : String) (h : ¬ l = "Total Revenue") :
    zeroRevenue t l = t l := if_neg h

lemma zeroRevenue_cellValue (t : StatementTable) :
    cellValue (zeroRevenue t) "Total Revenue" = some 0 := by
  unfold cellValue zeroRevenue
  rw [if_pos rfl]
  rfl

lemma cellValue_congr (t1 t2 : StatementTable) (l : String) (h : t1 l = t2 l) :
    cellValue t1 l = cellValue t2 l := by
  unfold cellValue
  rw [h]

lemma roceRoic_block_failure (inc bs : StatementTable)
    (h : bs "Total Assets" = none ∨ findField bs current_liabilities_fields = none ∨
         findField inc operating_income_fields = none ∨
         findField inc net_income_fields = none) :
    roceOf inc bs = none ∧ roicOf inc bs = none := by
  unfold roceOf roicOf roceRoicPair
  rcases hta : bs "Total Assets" with _ | taS <;>
    rcases hcl : findField bs current_liabilities_fields with _ | clS <;>
    rcases hoi : findField inc operating_income_fields with _ | oiS <;>
    rcases hni : findField inc net_income_fields with _ | niS <;>
    try exact ⟨rfl, rfl⟩
  rcases h with h | h | h | h
  · rw [hta] at h; exact Option.noConfusion h
  · rw [hcl] at h; exact Option.noConfusion h
  · rw [hoi] at h; exact Option.noConfusion h
  · rw [hni] at h; exact Option.noConfusion h

/-- C1 counterexample income statement: Operating Income present, every
net-income synonym absent. -/
def incC1 : StatementTable := fun l =>
  if l = "Operating Income" then some [some 40] else none

/-- C1 counterexample balance sheet: Total Assets 100, Total Current
Liabilities 20, so Capital Employed 80. -/
def bsC1 : StatementTable := fun l =>
  if l = "Total Assets" then some [some 100]
  else if l = "Total Current Liabilities" then some [some 20] else none

/-- C1 counterexample cash flow: Operating Cash Flow present. -/
def cfC1 : StatementTable := fun l =>
  if l = "Operating Cash Flow" then some [some 8] else none

/-- C1 (amended): for every derived ratio, a zero or unavailable denominator
yields the explicit Unavailable marker, never a substituted zero, a division
error or an infinity.  Guard independence holds with one exception, the
shared ROCE/ROIC block: that block first resolves Total Assets, current
liabilities, operating income and net income, and if any of those four
resolutions fails, both ROCE and ROIC are Unavailable - even when the other
ratio's own numerator and denominator are available.  Outside that block a
failed denominator for one ratio leaves the others unchanged: forcing the
margins' denominator (Total Revenue) to zero leaves ROCE, ROIC, Cash
Conversion and Interest Coverage exactly as they were. -/
theorem claim1_division_guards :
    (∀ inc : StatementTable,
        cellValue inc "Total Revenue" = none ∨ cellValue inc "Total Revenue" = some 0 →
        grossMarginOf inc = none ∧ operatingMarginOf inc = none) ∧
    (∀ inc bs : StatementTable,
        capital_employed bs = none ∨ capital_employed bs = some 0 →
        roceOf inc bs = none ∧ roicOf inc bs = none) ∧
    (∀ cf inc : StatementTable,
        cellValue inc "Net Income" = none ∨ cellValue inc "Net Income" = some 0 →
        cashConversionOf cf inc = none) ∧
    (∀ inc : StatementTable,
        cellValue inc "Interest Expense" = none ∨ cellValue inc "Interest Expense" = some 0 →
        interestCoverageOf inc = none) ∧
    (∀ (bs : StatementTable) (info : MarketInfo) (ltdS stdS : List Cell),
        bs "Long Term Debt" = some ltdS → bs "Short Term Debt" = some stdS →
        cellValue bs "Total Stockholder Equity" = none ∨
          cellValue bs "Total Stockholder Equity" = some 0 →
        debtToEquityOf bs info = none) ∧
    (∀ s : List Cell, (s.get? 1).join = none ∨ (s.get? 1).join = some 0 →
        calculate_growth_rate s = none) ∧
    (∀ inc bs : StatementTable,
        bs "Total Assets" = none ∨ findField bs current_liabilities_fields = none ∨
          findField inc operating_income_fields = none ∨
          findField inc net_income_fields = none →
        roceOf inc bs = none ∧ roicOf inc bs = none) ∧
    (∀ (inc bs cf : StatementTable) (info : MarketInfo),
        grossMarginOf (zeroRevenue inc) = none ∧
        operatingMarginOf (zeroRevenue inc) = none ∧
        roceOf (zeroRevenue inc) bs = roceOf inc bs ∧
        roicOf (zeroRevenue inc) bs = roicOf inc bs ∧
        cashConversionOf cf (zeroRevenue inc) = cashConversionOf cf inc ∧
        interestCoverageOf (zeroRevenue inc) = interestCoverageOf inc ∧
        debtToEquityOf bs info = debtToEquityOf bs info) := by
  refine ⟨fun inc h => ⟨grossMargin_guard inc h, operatingMargin_guard inc h⟩,
    roceRoic_guard, cashConversion_guard, interestCoverage_guard,
    debtToEquity_guard, growth_guard, roceRoic_block_failure, ?_⟩
  intro inc bs cf info
  have hz := zeroRevenue_cellValue inc
  have hoi : findField (zeroRevenue inc) operating_income_fields =
      findField inc operating_income_fields := by
    apply findField_congr
    intro l hl
    fin_cases hl <;> exact zeroRevenue_other inc _ (by decide)
  have hni : findField (zeroRevenue inc) net_income_fields =
      findField inc net_income_fields := by
    apply findField_congr
    intro l hl
    fin_cases hl <;> exact zeroRevenue_other inc _ (by decide)
  have hpair : roceRoicPair (zeroRevenue inc) bs = roceRoicPair inc bs := by
    unfold roceRoicPair resolveField
    rw [hoi, hni]
  refine ⟨grossMargin_guard _ (Or.inr hz), operatingMargin_guard _ (Or.inr hz),
    ?_, ?_, ?_, ?_, rfl⟩
  · unfold roceOf; rw [hpair]
  · unfold roicOf; rw [hpair]
  · unfold cashConversionOf
    rw [zeroRevenue_other inc "Net Income" (by decide),
      cellValue_congr _ _ "Net Income" (zeroRevenue_other inc _ (by decide))]
  · unfold interestCoverageOf
    rw [zeroRevenue_other inc "Interest Expense" (by decide),
      zeroRevenue_other inc "Operating Income" (by decide),
      cellValue_congr _ _ "Interest Expense" (zeroRevenue_other inc _ (by decide)),
      cellValue_congr _ _ "Operating Income" (zeroRevenue_other inc _ (by decide))]

/-- C1 witness: a statement with a zero Total Revenue row has Unavailable
margins. -/
theorem claim1_division_guards_witness :
    grossMarginOf (zeroRevenue fun _ => none) = none ∧
    operatingMarginOf (zeroRevenue fun _ => none) = none :=
  claim1_division_guards.1 (zeroRevenue fun _ => none)
    (Or.inr (zeroRevenue_cellValue fun _ => none))

/-- C1 counterexample: the ratio guards are not universally independent.
With every net-income synonym absent, Cash Conversion's denominator is
unavailable AND ROCE is Unavailable too, even though ROCE's own numerator
(Operating Income 40) and denominator (Capital Employed 80, nonzero) both
resolve: the shared block raises before ROCE is assigned and the handler
nulls both ratios (src/stock_check.py:335-357). -/
theorem claim1_independence_counterexample :
    capital_employed bsC1 = some 80 ∧
    resolveField incC1 operating_income_fields 0 = some 40 ∧
    findField incC1 net_income_fields = none ∧
    cellValue incC1 "Net Income" = none ∧
    cashConversionOf cfC1 incC1 = none ∧
    roceOf incC1 bsC1 = none ∧ roicOf incC1 bsC1 = none := by
  refine ⟨?_, rfl, rfl, rfl, rfl, rfl, rfl⟩
  simp [capital_employed, cellValue, resolveField, findField, bsC1,
    current_liabilities_fields]
  norm_num

/-- C7: ROCE and ROIC are computed from one shared Capital Employed value
(totalAssets minus totalCurrentLiabilities), so whenever both are available
they satisfy the cross-multiplied proportionality (and the division form
when the numerators are nonzero), and the derivation is a deterministic
pure function: recomputing from the same inputs yields identical results. -/
theorem claim7_shared_capital_employed :
    (∀ (inc bs : StatementTable) (r1 r2 : ℚ),
        roceOf inc bs = some r1 → roicOf inc bs = some r2 →
        ∃ ce oi ni : ℚ,
          capital_employed bs = some ce ∧ ce ≠ 0 ∧
          resolveField inc operating_income_fields 0 = some oi ∧
          resolveField inc net_income_fields 0 = some ni ∧
          r1 = oi / ce * 100 ∧ r2 = ni / ce * 100 ∧
          r1 * ni = r2 * oi ∧
          (oi ≠ 0 → ni ≠ 0 → r1 / oi = r2 / ni)) ∧
    (∀ (inc bs cf : StatementTable) (info : MarketInfo),
        calculate_ratios inc bs cf info = calculate_ratios inc bs cf info) := by
  refine ⟨?_, fun _ _ _ _ => rfl⟩
  intro inc bs r1 r2 h1 h2
  unfold roceOf at h1
  unfold roicOf at h2
  unfold roceRoicPair at h1 h2
  rcases hta : bs "Total Assets" with _ | taS <;> rw [hta] at h1 h2 <;>
    rcases hcl : findField bs current_liabilities_fields with _ | clS <;> rw [hcl] at h1 h2 <;>
    rcases hoiS : findField inc operating_income_fields with _ | oiS <;> rw [hoiS] at h1 h2 <;>
    rcases hniS : findField inc net_income_fields with _ | niS <;> rw [hniS] at h1 h2 <;>
    try exact Option.noConfusion h1
  unfold ratioOverCE at h1 h2
  rcases hce : capital_employed bs with _ | ce <;> rw [hce] at h1 h2
  · exact absurd h1 (by simp)
  rcases hov : resolveField inc operating_income_fields 0 with _ | oi <;> rw [hov] at h1
  · exact absurd h1 (by simp)
  rcases hnv : resolveField inc net_income_fields 0 with _ | ni <;> rw [hnv] at h2
  · exact absurd h2 (by simp)
  simp only [] at h1 h2
  by_cases hc : ce = 0
  · rw [hc] at h1; simp at h1
  rw [if_pos hc] at h1 h2
  have hr1 : r1 = oi / ce * 100 := (Option.some.inj h1).symm
  have hr2 : r2 = ni / ce * 100 := (Option.some.inj h2).symm
  refine ⟨ce, oi, ni, rfl, hc, rfl, rfl, hr1, hr2, ?_, ?_⟩
  · rw [hr1, hr2]; ring
  · intro ho hn
    rw [hr1, hr2]
    field_simp
    ring

/-- C9: Debt to Equity sums Long Term Debt and Short Term Debt before
dividing by Total Stockholder Equity whenever both debt rows are present
(matching the single-field result whenever Total Debt equals that sum), and
falls back to the market-provided leverage ratio rescaled from percentage
to ratio when either debt row is missing. -/
theorem claim9_debt_to_equity :
    (∀ (bs : StatementTable) (info : MarketInfo) (ltd std eq : ℚ),
        bs "Total Debt" = none →
        cellValue bs "Long Term Debt" = some ltd →
        cellValue bs "Short Term Debt" = some std →
        cellValue bs "Total Stockholder Equity" = some eq → eq ≠ 0 →
        debtToEquityOf bs info = some ((ltd + std) / eq) ∧
        (∀ td : ℚ, td = ltd + std → debtToEquityOf bs info = some (td / eq))) ∧
    (∀ (bs : StatementTable) (info : MarketInfo),
        bs "Long Term Debt" = none ∨ bs "Short Term Debt" = none →
        debtToEquityOf bs info = info.debtToEquity.map fun d => d / 100) := by
  constructor
  · intro bs info ltd std eq _ h1 h2 h3 h4
    rcases hl : bs "Long Term Debt" with _ | ltdS
    · rw [show cellValue bs "Long Term Debt" = none by unfold cellValue; rw [hl]; rfl] at h1
      exact absurd h1 (by simp)
    rcases hs : bs "Short Term Debt" with _ | stdS
    · rw [show cellValue bs "Short Term Debt" = none by unfold cellValue; rw [hs]; rfl] at h2
      exact absurd h2 (by simp)
    rcases he : bs "Total Stockholder Equity" with _ | eqS
    · rw [show cellValue bs "Total Stockholder Equity" = none by
        unfold cellValue; rw [he]; rfl] at h3
      exact absurd h3 (by simp)
    have heq : debtToEquityOf bs info = some ((ltd + std) / eq) := by
      unfold debtToEquityOf
      rw [hl, hs]
      dsimp only
      rw [he]
      dsimp only
      rw [h1, h2, h3]
      exact if_pos h4
    exact ⟨heq, fun td htd => by rw [heq, htd]⟩
  · intro bs info h
    unfold debtToEquityOf
    rcases h with h | h <;> rw [h]
    rcases hlt : bs "Long Term Debt" with _ | ltdS <;> rfl

/-- C7 witness tables: income statement with Operating Income 40 and Net
Income 16. -/
def incW7 : StatementTable := fun l =>
  if l = "Operating Income" then some [some 40]
  else if l = "Net Income" then some [some 16] else none

/-- C7 witness tables: balance sheet with Total Assets 100 and Total Current
Liabilities 20, so Capital Employed 80. -/
def bsW7 : StatementTable := fun l =>
  if l = "Total Assets" then some [some 100]
  else if l = "Total Current Liabilities" then some [some 20] else none

/-- C7 witness: on the concrete tables ROCE is 50 and ROIC is 20 and both
divide by the shared Capital Employed 80. -/
theorem claim7_shared_capital_employed_witness :
    ∃ ce oi ni : ℚ,
      capital_employed bsW7 = some ce ∧ ce ≠ 0 ∧
      resolveField incW7 operating_income_fields 0 = some oi ∧
      resolveField incW7 net_income_fields 0 = some ni ∧
      (50 : ℚ) = oi / ce * 100 ∧ (20 : ℚ) = ni / ce * 100 ∧
      (50 : ℚ) * ni = 20 * oi ∧
      (oi ≠ 0 → ni ≠ 0 → (50 : ℚ) / oi = 20 / ni) := by
  have h1 : roceOf incW7 bsW7 = some 50 := by
    simp [roceOf, roceRoicPair, ratioOverCE, capital_employed, resolveField, findField,
      cellValue, incW7, bsW7, current_liabilities_fields, operating_income_fields,
      net_income_fields]
    norm_num
  have h2 : roicOf incW7 bsW7 = some 20 := by
    simp [roicOf, roceRoicPair, ratioOverCE, capital_employed, resolveField, findField,
      cellValue, incW7, bsW7, current_liabilities_fields, operating_income_fields,
      net_income_fields]
    norm_num
  exact claim7_shared_capital_employed.1 incW7 bsW7 50 20 h1 h2

/-- C9 witness table: Long Term Debt 30, Short Term Debt 10, Total
Stockholder Equity 20, no Total Debt row. -/
def bsW9 : StatementTable := fun l =>
  if l = "Long Term Debt" then some [some 30]
  else if l = "Short Term Debt" then some [some 10]
  else if l = "Total Stockholder Equity" then some [some 20] else none

/-- C9 witness: the fallback sums 30 and 10 before dividing by 20. -/
theorem claim9_debt_to_equity_witness :
    debtToEquityOf bsW9 ({} : MarketInfo) = some ((30 + 10) / 20) ∧
    (∀ td : ℚ, td = 30 + 10 → debtToEquityOf bsW9 ({} : MarketInfo) = some (td / 20)) :=
  claim9_debt_to_equity.1 bsW9 {} 30 10 20 rfl rfl rfl rfl (by norm_num)

/-- Market snapshot of the successful-valuation witnesses: forward EPS 2,
forward P/E 10, price 20. -/
def infoSuccess : MarketInfo :=
  { currentPrice := some 20, forwardPE := some 10, forwardEps := some 2 }

/-- Market snapshot of the C5 counterexample: forward EPS 1, forward P/E 10
(base fair value 10) and current price 1000, so the price floor dominates
the band. -/
def infoC5 : MarketInfo :=
  { currentPrice := some 1000, forwardPE := some 10, forwardEps := some 1 }

/-- Market snapshot of the C6 counterexample: a present forward P/E, no
forward EPS and no revenue-per-share, so the negative-earnings bailout
fires while a numeric field is populated. -/
def infoC6 : MarketInfo := { forwardPE := some 10, priceToSales := some 2 }

/-- C4: the computed estimate classifies Undervalued when the price is below
the conservative value, Overvalued when above the optimistic value and
Fair Valued otherwise, with upside and downside the percentage distances
from the price to the band; in particular price 100 in the band 90-130 is
Fair Valued with upside 30 and downside 10, price 80 is Undervalued and
price 140 is Overvalued. -/
theorem claim4_valuation_status :
    (∀ (info : MarketInfo) (dte : Option ℚ) (e p : ℚ),
        info.forwardEps = some e → 0 < e → info.currentPrice = some p → p ≠ 0 →
        calculate_valuation_metrics info dte =
          successRecord (some (clampedFPE info)) (some (clampedIPE info)) info.forwardEps
            (info.industry.getD "N/A") (info.sector.getD "N/A") (baseFairValue info e)
            (conservativeOf (baseFairValue info e) (marginOf dte) (some p))
            (optimisticOf (baseFairValue info e) (marginOf dte))
            (valuationStatusOf p
              (conservativeOf (baseFairValue info e) (marginOf dte) (some p))
              (optimisticOf (baseFairValue info e) (marginOf dte)))
            (some (upsideOf p (optimisticOf (baseFairValue info e) (marginOf dte))))
            (some (downsideOf p
              (conservativeOf (baseFairValue info e) (marginOf dte) (some p))))) ∧
    (∀ p cons opt : ℚ, p < cons → valuationStatusOf p cons opt = "Undervalued") ∧
    (∀ p cons opt : ℚ, ¬ p < cons → opt < p → valuationStatusOf p cons opt = "Overvalued") ∧
    (∀ p cons opt : ℚ, ¬ p < cons → ¬ opt < p →
        valuationStatusOf p cons opt = "Fair Valued") ∧
    (∀ p opt : ℚ, upsideOf p opt = (opt - p) / p * 100) ∧
    (∀ p cons : ℚ, downsideOf p cons = (p - cons) / p * 100) ∧
    valuationStatusOf 100 90 130 = "Fair Valued" ∧
    upsideOf 100 130 = 30 ∧ downsideOf 100 90 = 10 ∧
    valuationStatusOf 80 90 130 = "Undervalued" ∧
    valuationStatusOf 140 90 130 = "Overvalued" := by
  refine ⟨calculate_valuation_metrics_success, ?_, ?_, ?_,
    fun p opt => rfl, fun p cons => rfl,
    by norm_num [valuationStatusOf], by norm_num [upsideOf], by norm_num [downsideOf],
    by norm_num [valuationStatusOf], by norm_num [valuationStatusOf]⟩
  · intro p cons opt h
    unfold valuationStatusOf
    rw [if_pos h]
  · intro p cons opt h1 h2
    unfold valuationStatusOf
    rw [if_neg h1, if_pos h2]
  · intro p cons opt h1 h2
    unfold valuationStatusOf
    rw [if_neg h1, if_neg h2]

/-- C4 witness: the success-path characterization applied at a concrete
snapshot (forward EPS 2, forward P/E 10, price 20). -/
theorem claim4_valuation_status_witness :
    calculate_valuation_metrics infoSuccess none =
      successRecord (some (clampedFPE infoSuccess)) (some (clampedIPE infoSuccess))
        infoSuccess.forwardEps (infoSuccess.industry.getD "N/A")
        (infoSuccess.sector.getD "N/A") (baseFairValue infoSuccess 2)
        (conservativeOf (baseFairValue infoSuccess 2) (marginOf none) (some 20))
        (optimisticOf (baseFairValue infoSuccess 2) (marginOf none))
        (valuationStatusOf 20
          (conservativeOf (baseFairValue infoSuccess 2) (marginOf none) (some 20))
          (optimisticOf (baseFairValue infoSuccess 2) (marginOf none)))
        (some (upsideOf 20 (optimisticOf (baseFairValue infoSuccess 2) (marginOf none))))
        (some (downsideOf 20
          (conservativeOf (baseFairValue infoSuccess 2) (marginOf none) (some 20)))) :=
  claim4_valuation_status.1 infoSuccess none 2 20 rfl (by norm_num) rfl (by norm_num)

/-- C5 counterexample: with base fair value 10 and current price 1000 the
returned band is conservative 100 and optimistic 12, and 12 is not at least
1.2 times 100 - the claimed band inequality fails on the returned
estimate. -/
theorem claim5_band_counterexample :
    List.lookup "Value Range" (calculate_valuation_metrics infoC5 none) =
      some (VField.range 100 12) ∧ ¬ ((12/10 : ℚ) * 100 ≤ 12) := by
  constructor
  · have heq := calculate_valuation_metrics_success infoC5 none 1 1000 rfl (by norm_num)
      rfl (by norm_num)
    have hc : conservativeOf (baseFairValue infoC5 1) (marginOf none) (some 1000) = 100 := by
      norm_num [conservativeOf, consFloor, baseFairValue, clampedFPE, clampedIPE,
        marginOf, infoC5, max_def, min_def]
    have ho : optimisticOf (baseFairValue infoC5 1) (marginOf none) = 12 := by
      norm_num [optimisticOf, consFloor, baseFairValue, clampedFPE, clampedIPE,
        marginOf, infoC5, max_def, min_def]
    rw [heq, hc, ho]
    rfl
  · norm_num

/-- C5 (amended): the conservative value is the pre-floor conservative
`max(base*(1-margin), 0)` floored at a tenth of the current price, the
optimistic value is `base*(1+margin)` floored at 1.2 times the PRE-floor
conservative value, so the optimistic value is always at least 1.2 times
the pre-floor conservative value, and at least 1.2 times the returned
conservative value whenever the price floor is not the binding term. -/
theorem claim5_band_amended (info : MarketInfo) (dte : Option ℚ) (e p : ℚ)
    (he : info.forwardEps = some e) (he0 : 0 < e) (hp : info.currentPrice = some p)
    (h0 : p ≠ 0) :
    List.lookup "Value Range" (calculate_valuation_metrics info dte) =
      some (VField.range
        (max (consFloor (baseFairValue info e) (marginOf dte)) (p * (1/10)))
        (optimisticOf (baseFairValue info e) (marginOf dte))) ∧
    (12/10) * consFloor (baseFairValue info e) (marginOf dte) ≤
      optimisticOf (baseFairValue info e) (marginOf dte) ∧
    (p * (1/10) ≤ consFloor (baseFairValue info e) (marginOf dte) →
      (12/10) * conservativeOf (baseFairValue info e) (marginOf dte) (some p) ≤
        optimisticOf (baseFairValue info e) (marginOf dte)) := by
  have heq := calculate_valuation_metrics_success info dte e p he he0 hp h0
  have hopt : (12/10) * consFloor (baseFairValue info e) (marginOf dte) ≤
      optimisticOf (baseFairValue info e) (marginOf dte) := by
    unfold optimisticOf
    rw [mul_comm]
    exact le_max_right _ _
  refine ⟨by rw [heq]; rfl, hopt, ?_⟩
  intro hfloor
  unfold conservativeOf
  dsimp only
  rw [max_eq_left hfloor]
  exact hopt

/-- C5 witness: the amended band facts at the concrete snapshot where the
price floor is not binding. -/
theorem claim5_band_amended_witness :
    List.lookup "Value Range" (calculate_valuation_metrics infoSuccess none) =
      some (VField.range
        (max (consFloor (baseFairValue infoSuccess 2) (marginOf none)) (20 * (1/10)))
        (optimisticOf (baseFairValue infoSuccess 2) (marginOf none))) ∧
    (12/10) * consFloor (baseFairValue infoSuccess 2) (marginOf none) ≤
      optimisticOf (baseFairValue infoSuccess 2) (marginOf none) ∧
    ((20 : ℚ) * (1/10) ≤ consFloor (baseFairValue infoSuccess 2) (marginOf none) →
      (12/10) * conservativeOf (baseFairValue infoSuccess 2) (marginOf none) (some 20) ≤
        optimisticOf (baseFairValue infoSuccess 2) (marginOf none)) :=
  claim5_band_amended infoSuccess none 2 20 rfl (by norm_num) rfl (by norm_num)

/-- C6 counterexample: with forward EPS missing, revenue-per-share missing
and forward P/E present, the bailout record carries the numeric forward P/E
value 10 while Fair Value is Unavailable, and its status is "Negative
Earnings" - the record is partially populated, not fully Unavailable. -/
theorem claim6_unable_counterexample :
    List.lookup "Forward P/E" (calculate_valuation_metrics infoC6 none) =
      some (VField.num (some 10)) ∧
    List.lookup "Fair Value" (calculate_valuation_metrics infoC6 none) =
      some (VField.num none) ∧
    List.lookup "Valuation Status" (calculate_valuation_metrics infoC6 none) =
      some (VField.str "Negative Earnings") :=
  ⟨rfl, rfl, rfl⟩

/-- C6 (amended): when forward EPS is missing or non-positive and the
revenue-multiple inputs are not both present, the estimator returns the
fixed Negative Earnings record in which industry P/E, fair value, the band,
upside and downside are Unavailable, while the forward P/E and forward EPS
fields pass through their input values, which may be present. -/
theorem claim6_failure_amended (info : MarketInfo) (dte : Option ℚ)
    (h1 : info.forwardEps = none ∨ ∃ e, info.forwardEps = some e ∧ e ≤ 0)
    (h2 : info.revenuePerShare = none ∨ info.priceToSales = none) :
    calculate_valuation_metrics info dte =
      negEarningsRecord info.forwardPE info.forwardEps
        (info.industry.getD "N/A") (info.sector.getD "N/A") ∧
    List.lookup "Industry P/E" (calculate_valuation_metrics info dte) =
      some (VField.num none) ∧
    List.lookup "Fair Value" (calculate_valuation_metrics info dte) =
      some (VField.num none) ∧
    List.lookup "Value Range" (calculate_valuation_metrics info dte) =
      some (VField.str "N/A") ∧
    List.lookup "Upside Potential (%)" (calculate_valuation_metrics info dte) =
      some (VField.num none) ∧
    List.lookup "Downside Risk (%)" (calculate_valuation_metrics info dte) =
      some (VField.num none) ∧
    List.lookup "Valuation Status" (calculate_valuation_metrics info dte) =
      some (VField.str "Negative Earnings") ∧
    List.lookup "Forward P/E" (calculate_valuation_metrics info dte) =
      some (VField.num info.forwardPE) ∧
    List.lookup "Forward EPS" (calculate_valuation_metrics info dte) =
      some (VField.num info.forwardEps) := by
  have hrf : revenueFallback info dte =
      negEarningsRecord info.forwardPE info.forwardEps
        (info.industry.getD "N/A") (info.sector.getD "N/A") := by
    unfold revenueFallback
    rcases h2 with h2 | h2 <;> rw [h2]
    rcases hr : info.revenuePerShare with _ | rps <;> rfl
  have heq : calculate_valuation_metrics info dte =
      negEarningsRecord info.forwardPE info.forwardEps
        (info.industry.getD "N/A") (info.sector.getD "N/A") := by
    unfold calculate_valuation_metrics
    rcases h1 with h1 | ⟨e, he, he0⟩
    · rw [h1] at hrf ⊢
      exact hrf
    · rw [he] at hrf ⊢
      dsimp only
      rw [if_neg (not_lt.mpr he0)]
      exact hrf
  exact ⟨heq, by rw [heq]; rfl, by rw [heq]; rfl, by rw [heq]; rfl, by rw [heq]; rfl,
    by rw [heq]; rfl, by rw [heq]; rfl, by rw [heq]; rfl, by rw [heq]; rfl⟩

/-- C6 witness: the amended failure shape at the concrete snapshot. -/
theorem claim6_failure_amended_witness :
    calculate_valuation_metrics infoC6 none = negEarningsRecord (some 10) none "N/A" "N/A" :=
  (claim6_failure_amended infoC6 none (Or.inl rfl) (Or.inl rfl)).1

/-- C10 witness: the fixed key list on a concrete snapshot. -/
theorem claim10_record_shape_witness :
    (calculate_valuation_metrics infoSuccess none).map Prod.fst = valuationFieldNames :=
  claim10_record_shape.1 infoSuccess none

end StockCheck
